import Mathlib

/-
Verification of the runtime duck-typing validation snippets in
downloads/code/rtc_typing_example.py, rtc_typing_example2.py and
rtc_typing_example3.py.

The Python values that the code inspects are modelled by the inductive
type PyVal below.  The only attributes the code ever probes with
hasattr are the three capability dunders "__getitem__", "__setitem__"
and "__iter__", so the attribute table pyAttrs records exactly which of
those each modelled value exposes, following CPython (Python 3)
semantics: strings expose indexed read and iteration but not indexed
write; lists and dicts expose all three; sets, generators expose
iteration; integers, booleans, None and bound methods expose none of
the three.  Arbitrary objects carry an explicit attribute list, an
explicit membership list (the string keys for which the "in" operator
succeeds on them) and an explicit truthiness flag.
-/

/-- Model of the Python values handled by the validators: None, booleans,
integers, strings, lists, string-keyed dicts, sets, generators, bound
methods, and arbitrary objects described by the capability attributes they
expose, the string keys they contain, and their truthiness. -/
inductive PyVal where
  | none
  | bool (b : Bool)
  | int (n : Int)
  | str (s : String)
  | list (xs : List PyVal)
  | dict (entries : List (String × PyVal))
  | set (xs : List PyVal)
  | generator
  | method
  | obj (attrs : List String) (contents : List String) (truthy : Bool)

/-- Capability attributes (among "__getitem__", "__setitem__", "__iter__")
exposed by each modelled value, per CPython semantics. -/
def pyAttrs : PyVal → List String
  | .none => []
  | .bool _ => []
  | .int _ => []
  | .str _ => ["__getitem__", "__iter__"]
  | .list _ => ["__getitem__", "__setitem__", "__iter__"]
  | .dict _ => ["__getitem__", "__setitem__", "__iter__"]
  | .set _ => ["__iter__"]
  | .generator => ["__iter__"]
  | .method => []
  | .obj attrs _ _ => attrs

/-- Attribute lookup getattr(v, a): returns the attribute (modelled as an
opaque bound method) or raises AttributeError. -/
def pyGetattr (v : PyVal) (a : String) : Except String PyVal :=
  if (pyAttrs v).contains a then Except.ok PyVal.method
  else Except.error "AttributeError"

/-- hasattr(v, a): performs the lookup and catches AttributeError, hence
total and boolean-valued. -/
def pyHasattr (v : PyVal) (a : String) : Bool :=
  match pyGetattr v a with
  | .ok _ => true
  | .error _ => false

/-- Truthiness bool(v) of each modelled value, per CPython semantics:
None and numeric zero are falsy, empty strings and empty collections are
falsy, generators and bound methods are truthy, objects carry their own
flag (standing for a user-defined __bool__ or __len__). -/
def pyTruthy : PyVal → Bool
  | .none => false
  | .bool b => b
  | .int n => n != 0
  | .str s => s != ""
  | .list xs => !xs.isEmpty
  | .dict es => !es.isEmpty
  | .set xs => !xs.isEmpty
  | .generator => true
  | .method => true
  | .obj _ _ t => t

/-- isinstance(v, str) for the modelled values. -/
def isinstance_str : PyVal → Bool
  | .str _ => true
  | _ => false

/-- Source rtc_typing_example2.py lines 1-2 (identical in example3):
hasattr(obj, "__getitem__") and hasattr(obj, "__setitem__"). -/
def is_dict_like (obj : PyVal) : Bool :=
  pyHasattr obj "__getitem__" && pyHasattr obj "__setitem__"

/-- Source rtc_typing_example2.py lines 4-5 (identical in example3):
hasattr(obj, "__iter__"). -/
def is_iterable (obj : PyVal) : Bool :=
  pyHasattr obj "__iter__"

/-- Source rtc_typing_example2.py lines 7-8 (identical in example3):
not obj or is_dict_like(obj). -/
def is_optional_dict (obj : PyVal) : Bool :=
  !pyTruthy obj || is_dict_like obj

/-- Spec-side notion: the value exposes a read-by-key operation. -/
def readByKey (v : PyVal) : Bool := pyHasattr v "__getitem__"

/-- Spec-side notion: the value exposes a write-by-key operation. -/
def writeByKey (v : PyVal) : Bool := pyHasattr v "__setitem__"

/-- Spec-side notion: the value can produce a sequence of elements via
iteration.  In CPython iter(v) succeeds when v exposes "__iter__" or,
through the legacy sequence protocol, when it exposes "__getitem__"
alone (iter then falls back to integer indexing).  The modelled values
with this capability are therefore strings, lists, dicts, sets,
generators, and objects exposing "__iter__" or "__getitem__". -/
def canIterate : PyVal → Bool
  | .str _ => true
  | .list _ => true
  | .dict _ => true
  | .set _ => true
  | .generator => true
  | .obj attrs _ _ => attrs.contains "__iter__" || attrs.contains "__getitem__"
  | _ => false

/-
Call-level semantics.  To state that the validators never raise and never
mutate their subject, each validator call is evaluated in an exception
monad threaded with the state of the subject: a call step returns either
an exception or a result value, paired with the subject after the step.
-/

/-- Evaluation of hasattr(v, a) as a call step: the lookup is performed
and AttributeError is caught inside hasattr, and the subject is left
unchanged by attribute probing. -/
def hasattrCall (v : PyVal) (a : String) : Except String PyVal × PyVal :=
  match pyGetattr v a with
  | .ok _ => (Except.ok (PyVal.bool true), v)
  | .error _ => (Except.ok (PyVal.bool false), v)

/-- Evaluation of the truth test bool(v) as a call step: total on the
modelled values and leaves the subject unchanged. -/
def truthCall (v : PyVal) : Except String PyVal × PyVal :=
  (Except.ok (PyVal.bool (pyTruthy v)), v)

/-- Evaluation of a call is_dict_like(v): the two hasattr probes combined
with the short-circuiting Python "and" (which returns its first falsy
operand, otherwise its second operand). -/
def is_dict_like_call (v : PyVal) : Except String PyVal × PyVal :=
  match hasattrCall v "__getitem__" with
  | (.error e, v1) => (Except.error e, v1)
  | (.ok r1, v1) =>
    if pyTruthy r1 then
      match hasattrCall v1 "__setitem__" with
      | (.error e, v2) => (Except.error e, v2)
      | (.ok r2, v2) => (Except.ok r2, v2)
    else (Except.ok r1, v1)

/-- Evaluation of a call is_iterable(v): a single hasattr probe. -/
def is_iterable_call (v : PyVal) : Except String PyVal × PyVal :=
  hasattrCall v "__iter__"

/-- Evaluation of a call is_optional_dict(v): "not v" followed by the
short-circuiting Python "or" (which returns its first truthy operand,
otherwise its second operand). -/
def is_optional_dict_call (v : PyVal) : Except String PyVal × PyVal :=
  match truthCall v with
  | (.error e, v1) => (Except.error e, v1)
  | (.ok t, v1) =>
    let notv := PyVal.bool (!pyTruthy t)
    if pyTruthy notv then (Except.ok notv, v1)
    else is_dict_like_call v1

/-
The "in" operator, needed by the result-shape assertion of
rtc_typing_example3.py: "name" in result, et cetera.  Only membership of
a string literal is ever tested by the code.
-/

/-- Python equality of a string literal against a modelled value: equal
exactly to the same string, unequal (without raising) to anything else. -/
def eqStr (s : String) : PyVal → Bool
  | .str t => s == t
  | _ => false

/-- List-of-characters prefix test. -/
def charsPre : List Char → List Char → Bool
  | [], _ => true
  | _ :: _, [] => false
  | a :: as, b :: bs => a == b && charsPre as bs

/-- List-of-characters substring test. -/
def charsSub (needle : List Char) : List Char → Bool
  | [] => charsPre needle []
  | c :: rest => charsPre needle (c :: rest) || charsSub needle rest

/-- Evaluation of the Python membership test (s in v) for a string
literal s: key membership for dicts, element membership for lists and
sets, substring for strings; the model generator is exhausted and yields
no elements; objects support membership when they expose "__contains__",
"__iter__" or "__getitem__" and then answer from their contents list;
every other value raises TypeError. -/
def pyIn (s : String) : PyVal → Except String Bool
  | .dict es => Except.ok (es.any (fun p => p.1 == s))
  | .list xs => Except.ok (xs.any (eqStr s))
  | .set xs => Except.ok (xs.any (eqStr s))
  | .str t => Except.ok (charsSub s.data t.data)
  | .generator => Except.ok false
  | .obj attrs contents _ =>
    if attrs.contains "__contains__" || attrs.contains "__iter__" ||
        attrs.contains "__getitem__" then
      Except.ok (contents.contains s)
    else Except.error "TypeError"
  | _ => Except.error "TypeError"

/-
The three NewUser variants.  The User constructor and save_to_database
are undefined external collaborators of the snippets, so each NewUser is
parameterised by them.  A call returns the Python result (either a value
or an assertion failure in the exception monad) together with the list of
arguments passed to save_to_database, so that "persistence was never
invoked" is the statement that this list is empty.
-/

namespace RtcExample1

/-- Precondition gate of rtc_typing_example.py NewUser: the conjunction of
its four inline assert conditions, written with direct hasattr probes. -/
def gate (name categories attributes : PyVal) : Bool :=
  (pyTruthy name && pyTruthy categories) &&
  isinstance_str name &&
  pyHasattr categories "__iter__" &&
  (!pyTruthy attributes ||
    (pyHasattr attributes "__getitem__" && pyHasattr attributes "__setitem__"))

/-- Source rtc_typing_example.py lines 1-16: NewUser with inline hasattr
assertions, then User construction and save_to_database. -/
def NewUser (userC : PyVal → PyVal → PyVal → PyVal) (save : PyVal → PyVal)
    (name categories attributes : PyVal) : Except String PyVal × List PyVal :=
  if !(pyTruthy name && pyTruthy categories) then (Except.error "AssertionError", [])
  else if !isinstance_str name then (Except.error "AssertionError", [])
  else if !pyHasattr categories "__iter__" then (Except.error "AssertionError", [])
  else if !(!pyTruthy attributes ||
      (pyHasattr attributes "__getitem__" && pyHasattr attributes "__setitem__")) then
    (Except.error "AssertionError", [])
  else
    let user_obj := userC name categories attributes
    (Except.ok (save user_obj), [user_obj])

end RtcExample1

namespace RtcExample2

/-- Precondition gate of rtc_typing_example2.py NewUser (identical in
example3): the conjunction of its four assert conditions, written with the
named predicates. -/
def gate (name categories attributes : PyVal) : Bool :=
  (pyTruthy name && pyTruthy categories) &&
  isinstance_str name &&
  is_iterable categories &&
  is_optional_dict attributes

/-- Source rtc_typing_example2.py lines 10-25: NewUser with named
predicate assertions, then User construction and save_to_database. -/
def NewUser (userC : PyVal → PyVal → PyVal → PyVal) (save : PyVal → PyVal)
    (name categories attributes : PyVal) : Except String PyVal × List PyVal :=
  if !(pyTruthy name && pyTruthy categories) then (Except.error "AssertionError", [])
  else if !isinstance_str name then (Except.error "AssertionError", [])
  else if !is_iterable categories then (Except.error "AssertionError", [])
  else if !is_optional_dict attributes then (Except.error "AssertionError", [])
  else
    let user_obj := userC name categories attributes
    (Except.ok (save user_obj), [user_obj])

end RtcExample2

namespace RtcExample3

/-- Source rtc_typing_example3.py lines 10-28: NewUser with named
predicate assertions, User construction, save_to_database, and a final
assertion on the shape of the persistence result:
not result or (is_dict_like(result) and "name" in result and
"categories" in result and "attributes" in result), with Python
short-circuit evaluation, any TypeError raised by "in" propagating. -/
def NewUser (userC : PyVal → PyVal → PyVal → PyVal) (save : PyVal → PyVal)
    (name categories attributes : PyVal) : Except String PyVal × List PyVal :=
  if !(pyTruthy name && pyTruthy categories) then (Except.error "AssertionError", [])
  else if !isinstance_str name then (Except.error "AssertionError", [])
  else if !is_iterable categories then (Except.error "AssertionError", [])
  else if !is_optional_dict attributes then (Except.error "AssertionError", [])
  else
    let user_obj := userC name categories attributes
    let result := save user_obj
    if !pyTruthy result then (Except.ok result, [user_obj])
    else if !is_dict_like result then (Except.error "AssertionError", [user_obj])
    else
      match pyIn "name" result with
      | .error e => (Except.error e, [user_obj])
      | .ok b1 =>
        if !b1 then (Except.error "AssertionError", [user_obj])
        else
          match pyIn "categories" result with
          | .error e => (Except.error e, [user_obj])
          | .ok b2 =>
            if !b2 then (Except.error "AssertionError", [user_obj])
            else
              match pyIn "attributes" result with
              | .error e => (Except.error e, [user_obj])
              | .ok b3 =>
                if !b3 then (Except.error "AssertionError", [user_obj])
                else (Except.ok result, [user_obj])

end RtcExample3

/-- Concrete test input from the spec: name "alice". -/
def aliceName : PyVal := PyVal.str "alice"

/-- Concrete test input from the spec: categories ["admin", "user"]. -/
def adminUserCats : PyVal := PyVal.list [PyVal.str "admin", PyVal.str "user"]

/-- Concrete test input from the spec: attributes mapping with age 30. -/
def ageAttrs : PyVal := PyVal.dict [("age", PyVal.int 30)]

/-- Helper: hasattr is the membership test on the attribute table. -/
theorem pyHasattr_eq_contains (v : PyVal) (a : String) :
    pyHasattr v a = (pyAttrs v).contains a := by
  cases h : (pyAttrs v).contains a <;> simp at h <;>
    simp [pyHasattr, pyGetattr, h]

/-- Helper: truthiness of a modelled boolean is that boolean. -/
theorem pyTruthy_bool (b : Bool) : pyTruthy (PyVal.bool b) = b := rfl

/-- Helper: a hasattr call never raises, returns the boolean pyHasattr
answer, and leaves the subject unchanged. -/
theorem hasattrCall_eq (v : PyVal) (a : String) :
    hasattrCall v a = (Except.ok (PyVal.bool (pyHasattr v a)), v) := by
  unfold hasattrCall pyHasattr
  cases pyGetattr v a <;> rfl

/-- Helper: an is_dict_like call never raises, returns the boolean
is_dict_like answer, and leaves the subject unchanged. -/
theorem is_dict_like_call_eq (v : PyVal) :
    is_dict_like_call v = (Except.ok (PyVal.bool (is_dict_like v)), v) := by
  cases h1 : pyHasattr v "__getitem__" <;> cases h2 : pyHasattr v "__setitem__" <;>
    simp [is_dict_like_call, hasattrCall_eq, is_dict_like, h1, h2, pyTruthy]

/-- C1: is_dict_like holds exactly when the value exposes both a
read-by-key operation and a write-by-key operation; in particular it is
false on every integer, every string and None, and true on every
key-value mapping. -/
theorem is_dict_like_characterization :
    (∀ v : PyVal, is_dict_like v = (readByKey v && writeByKey v)) ∧
    (∀ n : Int, is_dict_like (PyVal.int n) = false) ∧
    (∀ s : String, is_dict_like (PyVal.str s) = false) ∧
    is_dict_like PyVal.none = false ∧
    (∀ es : List (String × PyVal), is_dict_like (PyVal.dict es) = true) :=
  ⟨fun _ => rfl, fun _ => rfl, fun _ => rfl, rfl, fun _ => rfl⟩

/-- C2: is_optional_dict is exactly "the value is falsy or is_dict_like
holds"; in particular it is true on None and on the empty mapping. -/
theorem is_optional_dict_characterization :
    (∀ v : PyVal, is_optional_dict v = (!pyTruthy v || is_dict_like v)) ∧
    is_optional_dict PyVal.none = true ∧
    is_optional_dict (PyVal.dict []) = true :=
  ⟨fun _ => rfl, rfl, rfl⟩

/-- C3 counterexample: on the non-empty list ["x"] the predicate
is_optional_dict returns true, not false: Python lists expose both
"__getitem__" and "__setitem__", so they pass the dict-like probe. -/
theorem nonempty_list_optional_dict_cex :
    is_optional_dict (PyVal.list [PyVal.str "x"]) = true := rfl

/-- C3 amended: for every non-empty list value, is_optional_dict returns
true (the list is truthy, but it exposes both indexed read and indexed
write and therefore satisfies is_dict_like). -/
theorem nonempty_list_optional_dict (x : PyVal) (xs : List PyVal) :
    is_optional_dict (PyVal.list (x :: xs)) = true := rfl

/-- C4 counterexample: an object exposing only "__getitem__" can produce
a sequence of elements via iteration (CPython falls back to the legacy
sequence protocol), yet is_iterable returns false on it, refuting the
claimed equivalence between is_iterable and iteration capability. -/
theorem is_iterable_legacy_protocol_cex :
    is_iterable (PyVal.obj ["__getitem__"] [] true) = false ∧
    canIterate (PyVal.obj ["__getitem__"] [] true) = true :=
  ⟨rfl, rfl⟩

/-- C4 amended: iteration capability is is_iterable or read-by-key (the
legacy sequence protocol), so is_iterable implies iteration capability
but not conversely; in particular is_iterable is true on every list,
every set and the generator, and false on every integer. -/
theorem is_iterable_amended :
    (∀ v : PyVal, canIterate v = (is_iterable v || readByKey v)) ∧
    (∀ xs : List PyVal, is_iterable (PyVal.list xs) = true) ∧
    (∀ xs : List PyVal, is_iterable (PyVal.set xs) = true) ∧
    is_iterable PyVal.generator = true ∧
    (∀ n : Int, is_iterable (PyVal.int n) = false) := by
  refine ⟨fun v => ?_, fun _ => rfl, fun _ => rfl, rfl, fun _ => rfl⟩
  cases v <;>
    simp [is_iterable, canIterate, readByKey, pyHasattr_eq_contains, pyAttrs]

/-- C5: on every input value, each of the three validator calls
terminates without raising, returns a boolean, and leaves its subject
unchanged. -/
theorem validators_total_pure (v : PyVal) :
    is_dict_like_call v = (Except.ok (PyVal.bool (is_dict_like v)), v) ∧
    is_iterable_call v = (Except.ok (PyVal.bool (is_iterable v)), v) ∧
    is_optional_dict_call v = (Except.ok (PyVal.bool (is_optional_dict v)), v) := by
  refine ⟨is_dict_like_call_eq v, hasattrCall_eq v "__iter__", ?_⟩
  cases h : pyTruthy v <;>
    simp [is_optional_dict_call, truthCall, is_optional_dict, h, pyTruthy_bool,
      is_dict_like_call_eq]

/-- C6: with name "alice", categories ["admin", "user"] and attributes
containing age 30, NewUser (first and second variant) passes its
precondition gate and reaches persistence; with the empty name it raises
an assertion failure and save_to_database is never invoked. -/
theorem newuser_end_to_end (userC : PyVal → PyVal → PyVal → PyVal)
    (save : PyVal → PyVal) :
    RtcExample1.NewUser userC save aliceName adminUserCats ageAttrs =
      (Except.ok (save (userC aliceName adminUserCats ageAttrs)),
        [userC aliceName adminUserCats ageAttrs]) ∧
    RtcExample2.NewUser userC save aliceName adminUserCats ageAttrs =
      (Except.ok (save (userC aliceName adminUserCats ageAttrs)),
        [userC aliceName adminUserCats ageAttrs]) ∧
    RtcExample1.NewUser userC save (PyVal.str "") adminUserCats ageAttrs =
      (Except.error "AssertionError", []) ∧
    RtcExample2.NewUser userC save (PyVal.str "") adminUserCats ageAttrs =
      (Except.error "AssertionError", []) :=
  ⟨rfl, rfl, rfl, rfl⟩

/-- C7: whenever the third-variant NewUser returns normally, the returned
value is falsy or is a dict-like value containing the keys "name",
"categories" and "attributes". -/
theorem newuser3_result_shape (userC : PyVal → PyVal → PyVal → PyVal)
    (save : PyVal → PyVal) (name categories attributes : PyVal)
    (r : PyVal) (log : List PyVal)
    (h : RtcExample3.NewUser userC save name categories attributes =
      (Except.ok r, log)) :
    pyTruthy r = false ∨
      (is_dict_like r = true ∧ pyIn "name" r = Except.ok true ∧
        pyIn "categories" r = Except.ok true ∧
        pyIn "attributes" r = Except.ok true) := by
  unfold RtcExample3.NewUser at h
  repeat' split at h
  all_goals try simp_all
  all_goals repeat' split at h
  all_goals simp_all

/-- C7 witness: a persistence collaborator returning None yields a normal
return whose value is falsy. -/
theorem newuser3_result_shape_witness :
    pyTruthy PyVal.none = false ∨
      (is_dict_like PyVal.none = true ∧ pyIn "name" PyVal.none = Except.ok true ∧
        pyIn "categories" PyVal.none = Except.ok true ∧
        pyIn "attributes" PyVal.none = Except.ok true) :=
  newuser3_result_shape (fun _ _ _ => PyVal.none) (fun _ => PyVal.none)
    aliceName adminUserCats ageAttrs PyVal.none [PyVal.none] rfl

/-- C8: on every input triple failing some assert condition of the gate,
the second and third variant NewUser raise an assertion failure, return no
normal result, and never invoke persistence (the call trace is empty and
the outcome does not depend on the collaborators). -/
theorem newuser_gate_failure (userC1 userC2 : PyVal → PyVal → PyVal → PyVal)
    (save1 save2 : PyVal → PyVal) (name categories attributes : PyVal)
    (h : RtcExample2.gate name categories attributes = false) :
    RtcExample2.NewUser userC1 save1 name categories attributes =
      (Except.error "AssertionError", []) ∧
    RtcExample3.NewUser userC2 save2 name categories attributes =
      (Except.error "AssertionError", []) := by
  unfold RtcExample2.gate at h
  cases h1 : (pyTruthy name && pyTruthy categories) <;>
  cases h2 : isinstance_str name <;>
  cases h3 : is_iterable categories <;>
  cases h4 : is_optional_dict attributes <;>
    simp_all [RtcExample2.NewUser, RtcExample3.NewUser]

/-- C8 witness: the empty name fails the gate and both variants raise
without invoking persistence. -/
theorem newuser_gate_failure_witness :
    RtcExample2.gate (PyVal.str "") adminUserCats ageAttrs = false ∧
    RtcExample2.NewUser (fun _ _ _ => PyVal.none) (fun _ => PyVal.none)
      (PyVal.str "") adminUserCats ageAttrs = (Except.error "AssertionError", []) ∧
    RtcExample3.NewUser (fun _ _ _ => PyVal.none) (fun _ => PyVal.none)
      (PyVal.str "") adminUserCats ageAttrs = (Except.error "AssertionError", []) :=
  ⟨rfl, newuser_gate_failure _ _ _ _ _ _ _ rfl⟩

/-- C9: the inline hasattr gate of the first variant and the named
predicate gate of the second variant accept exactly the same triples, and
the two NewUser functions agree on every input. -/
theorem gate_equivalence (userC : PyVal → PyVal → PyVal → PyVal)
    (save : PyVal → PyVal) (name categories attributes : PyVal) :
    RtcExample1.gate name categories attributes =
      RtcExample2.gate name categories attributes ∧
    RtcExample1.NewUser userC save name categories attributes =
      RtcExample2.NewUser userC save name categories attributes :=
  ⟨rfl, rfl⟩

/-- C10: every value satisfying is_dict_like satisfies is_optional_dict,
regardless of its truthiness. -/
theorem dict_like_implies_optional_dict (v : PyVal)
    (h : is_dict_like v = true) : is_optional_dict v = true := by
  simp [is_optional_dict, h]

/-- C10 witness: a one-entry mapping is dict-like, hence optional-dict. -/
theorem dict_like_implies_optional_dict_witness :
    is_optional_dict (PyVal.dict [("k", PyVal.int 1)]) = true :=
  dict_like_implies_optional_dict _ rfl
